import Mathlib

/-!
Shallow embedding of the value-selection utilities of mateothegreat/go-util:
`Pick`, `PickHasValue` and `IsZero` from src/values/pick.go, and
`IsStructFieldEmpty` from src/validation/structs.go, together with theorems
about them.

Modelling conventions:
- Go pointers are `Option` (a nil pointer is `none`).
- Go strings are `String`, signed integers `Int`, unsigned integers `Nat`,
  booleans `Bool`.  Width tags (int8/int16/... , float32/float64) are kept
  because the dynamic type matters: in the multi-type switch cases the case
  variable keeps type `any`, so `ptr == 0` is an interface comparison against
  a boxed `int(0)`, which only a value of dynamic type `int` can equal.  No
  comparison in the code depends on a value's magnitude beyond equality with
  0, so values are not truncated.
- Go floating-point values are modelled as rationals; the only operation the
  code performs on them is an equality comparison against 0, which agrees
  with IEEE comparison on every rational value (NaN and signed zeros play no
  role in any statement below).
- A boxed `any` value is `GoVal`; the nil interface is `GoVal.vNilIface`.
  A typed nil pointer boxed in an interface is NOT the nil interface, exactly
  as in Go, which is why e.g. `vPtrString none` is distinct from `vNilIface`.
- The static instantiation type `T` of the generic Go functions is `GoTy`;
  it is consulted exactly where the source consults it (`var zero T`).
- Go maps are association lists with unique keys; comma-ok indexing is
  `mapIndex` / `mapLookup`.
-/

namespace GoUtil

/-- Width tags for Go's signed integer kinds: int, int8, int16, int32, int64. -/
inductive IntWidth where
  | i
  | i8
  | i16
  | i32
  | i64
deriving DecidableEq

/-- Width tags for Go's unsigned integer kinds: uint, uint8, uint16, uint32, uint64. -/
inductive UintWidth where
  | u
  | u8
  | u16
  | u32
  | u64
deriving DecidableEq

/-- Width tags for Go's floating-point kinds: float32, float64. -/
inductive FloatWidth where
  | f32
  | f64
deriving DecidableEq

/-- Static Go types, as the generic instantiations `T` of the functions in
src/values/pick.go.  `tPtrOther` is a pointer type outside the thirteen
pointer cases the type switch handles (e.g. a pointer to a struct);
`tInterface` is an interface type (whose zero value is the nil interface). -/
inductive GoTy where
  | tString
  | tInt (w : IntWidth)
  | tUint (w : UintWidth)
  | tFloat (w : FloatWidth)
  | tBool
  | tPtrString
  | tPtrInt (w : IntWidth)
  | tPtrUint (w : UintWidth)
  | tPtrFloat (w : FloatWidth)
  | tPtrBool
  | tStruct (name : String) (fields : List GoTy)
  | tSlice (elem : GoTy)
  | tMap (key val : GoTy)
  | tPtrOther (target : GoTy)
  | tInterface

/-- Dynamic (boxed) Go values: what `any(v)` yields inside `IsZero`.
`vNilIface` is the nil interface value (the only value for which the Go
comparison `val == nil` holds).  `vPtrOther` is a pointer of a type outside
the handled pointer cases, possibly a typed nil (`none`). -/
inductive GoVal where
  | vNilIface
  | vString (s : String)
  | vInt (w : IntWidth) (n : Int)
  | vUint (w : UintWidth) (n : Nat)
  | vFloat (w : FloatWidth) (x : Rat)
  | vBool (b : Bool)
  | vPtrString (p : Option String)
  | vPtrInt (w : IntWidth) (p : Option Int)
  | vPtrUint (w : UintWidth) (p : Option Nat)
  | vPtrFloat (w : FloatWidth) (p : Option Rat)
  | vPtrBool (p : Option Bool)
  | vStruct (name : String) (fields : List GoVal)
  | vSlice (elems : List GoVal)
  | vMapV (entries : List (GoVal × GoVal))
  | vPtrOther (p : Option GoVal)

/-- Whether `any(zero)` for `var zero T` compares equal to nil: true exactly
when `T` is an interface type.  For every concrete type, including pointer
types (whose zero value is a typed nil), the boxed zero is non-nil. -/
def zeroIsNilIface : GoTy → Bool
  | .tInterface => true
  | _ => false

/-- The Go comparison `val == nil` on a boxed value. -/
def isNilIface : GoVal → Bool
  | .vNilIface => true
  | _ => false

/-- Go interface equality `ptr == 0` where `ptr` has static type `any`: the
untyped constant 0 takes its default type `int` and is boxed, and interface
equality requires identical dynamic types, so the comparison is true exactly
on a boxed `int` (width tag `i`) holding 0 — never on the other signed
widths, on any unsigned width, or on a float. -/
def eqBoxedIntZero : GoVal → Bool
  | .vInt .i n => decide (n = 0)
  | _ => false

/-- values.IsZero from src/values/pick.go.  Mirrors the source: the nil
interface check, then the type switch (pointer cases first, each a
single-type clause testing `ptr == nil || *ptr == zero` at the pointee's
type), then the non-pointer cases — `string` and `bool` are single-type
clauses with typed comparisons, while the numeric clauses
`case int, int8, int16, int32, int64`, `case uint, ...` and
`case float32, float64` list several types, so their case variable keeps
type `any` and `return ptr == 0` is the boxed interface comparison
`eqBoxedIntZero` — and finally the default branch
`var zero T; if any(zero) == nil { return val == nil }; return false`. -/
def IsZero (T : GoTy) (v : GoVal) : Bool :=
  match v with
  | .vNilIface => true
  | .vPtrString p =>
    match p with
    | none => true
    | some s => decide (s = "")
  | .vPtrInt _ p =>
    match p with
    | none => true
    | some n => decide (n = 0)
  | .vPtrUint _ p =>
    match p with
    | none => true
    | some n => decide (n = 0)
  | .vPtrFloat _ p =>
    match p with
    | none => true
    | some x => decide (x = 0)
  | .vPtrBool p =>
    match p with
    | none => true
    | some b => decide (b = false)
  | .vString s => decide (s = "")
  | v@(.vInt _ _) => eqBoxedIntZero v
  | v@(.vUint _ _) => eqBoxedIntZero v
  | v@(.vFloat _ _) => eqBoxedIntZero v
  | .vBool b => decide (b = false)
  | other => if zeroIsNilIface T then isNilIface other else false

mutual

/-- The Go zero value `var zero T` of a static type, boxed. -/
def zeroOf : GoTy → GoVal
  | .tString => .vString ""
  | .tInt w => .vInt w 0
  | .tUint w => .vUint w 0
  | .tFloat w => .vFloat w 0
  | .tBool => .vBool false
  | .tPtrString => .vPtrString none
  | .tPtrInt w => .vPtrInt w none
  | .tPtrUint w => .vPtrUint w none
  | .tPtrFloat w => .vPtrFloat w none
  | .tPtrBool => .vPtrBool none
  | .tStruct name fs => .vStruct name (zeroOfList fs)
  | .tSlice _ => .vSlice []
  | .tMap _ _ => .vMapV []
  | .tPtrOther _ => .vPtrOther none
  | .tInterface => .vNilIface

/-- Zero values of a list of field types (fields of a struct type). -/
def zeroOfList : List GoTy → List GoVal
  | [] => []
  | t :: ts => zeroOf t :: zeroOfList ts

end

/-- values.PickHasValue from src/values/pick.go: scan the candidates in
order, return the first one for which `IsZero` is false, and the zero value
of `T` when the scan falls through. -/
def PickHasValue (T : GoTy) (values : List GoVal) : GoVal :=
  match values with
  | [] => zeroOf T
  | v :: rest => if !(IsZero T v) then v else PickHasValue T rest

/-- Lookup in a Go map modelled as an association list with unique keys:
the value stored under `k`, if any. -/
def mapLookup {K V : Type} [DecidableEq K] (m : List (K × V)) (k : K) : Option V :=
  match m with
  | [] => none
  | (k', v) :: rest => if k' = k then some v else mapLookup rest k

/-- Go comma-ok map indexing `v, ok := m[key]` in state-passing form: the
looked-up value together with the map as it stands after the read.  Per the
Go specification a map read never modifies the map, which the model reflects
by returning the map unchanged. -/
def mapIndex {K V : Type} [DecidableEq K] (m : List (K × V)) (k : K) :
    Option V × List (K × V) :=
  (mapLookup m k, m)

/-- values.Pick from src/values/pick.go: `if v, ok := m[key]; ok { return v };
return defaultValue`. -/
def Pick {K V : Type} [DecidableEq K] (m : List (K × V)) (k : K) (d : V) : V :=
  match mapLookup m k with
  | some v => v
  | none => d

/-- State-passing form of values.Pick: the same source, with the map the
caller passed by reference returned alongside the result, so that
non-mutation is a statement rather than a convention. -/
def PickSt {K V : Type} [DecidableEq K] (m : List (K × V)) (k : K) (d : V) :
    V × List (K × V) :=
  match mapIndex m k with
  | (some v, m') => (v, m')
  | (none, m') => (d, m')

/-- The Go type name of a signed integer width, as reflect renders it. -/
def intWidthName : IntWidth → String
  | .i => "int"
  | .i8 => "int8"
  | .i16 => "int16"
  | .i32 => "int32"
  | .i64 => "int64"

/-- The Go type name of an unsigned integer width, as reflect renders it. -/
def uintWidthName : UintWidth → String
  | .u => "uint"
  | .u8 => "uint8"
  | .u16 => "uint16"
  | .u32 => "uint32"
  | .u64 => "uint64"

/-- The Go type name of a floating-point width, as reflect renders it. -/
def floatWidthName : FloatWidth → String
  | .f32 => "float32"
  | .f64 => "float64"

/-- A reflect.Value restricted to the data IsStructFieldEmpty inspects: the
kind, and for each kind the one attribute the corresponding switch case
reads (the string itself, the boolean, the numeric value, nil-ness for
interfaces and pointers, the length for arrays/slices/maps, the field count
for structs).  `rChanOrOther` stands for the kinds the switch does not
mention. -/
inductive RVal where
  | rString (s : String)
  | rBool (b : Bool)
  | rInt (w : IntWidth) (n : Int)
  | rUint (w : UintWidth) (n : Nat)
  | rUintptr (n : Nat)
  | rFloat (w : FloatWidth) (x : Rat)
  | rIface (isNil : Bool)
  | rPtr (isNil : Bool)
  | rArray (len : Nat)
  | rSlice (len : Nat)
  | rMapLen (len : Nat)
  | rStructN (numFields : Nat)
  | rChanOrOther

/-- reflect.Value.String(): the string itself for Kind String, and the
placeholder `"<" + type + " Value>"` for every other kind — in particular a
numeric value's rendering never contains its digits. -/
def rvString : RVal → String
  | .rString s => s
  | .rBool _ => "<bool Value>"
  | .rInt w _ => "<" ++ intWidthName w ++ " Value>"
  | .rUint w _ => "<" ++ uintWidthName w ++ " Value>"
  | .rUintptr _ => "<uintptr Value>"
  | .rFloat w _ => "<" ++ floatWidthName w ++ " Value>"
  | .rIface _ => "<interface Value>"
  | .rPtr _ => "<ptr Value>"
  | .rArray _ => "<array Value>"
  | .rSlice _ => "<slice Value>"
  | .rMapLen _ => "<map Value>"
  | .rStructN _ => "<struct Value>"
  | .rChanOrOther => "<chan Value>"

/-- Success condition of Go strconv.ParseInt(s, 10, 64): an optional sign
followed by one or more decimal digits, with the resulting magnitude inside
the signed 64-bit range.  (Digit-separating underscores need base 0 and are
rejected at base 10, so they are not modelled.) -/
def parseInt64Ok (s : String) : Bool :=
  let (neg, digits) :=
    match s.data with
    | '-' :: cs => (true, cs)
    | '+' :: cs => (false, cs)
    | cs => (false, cs)
  !digits.isEmpty && digits.all Char.isDigit &&
    (let v := digits.foldl (fun a d => a * 10 + (d.toNat - 48)) 0
     if neg then decide (v ≤ 2 ^ 63) else decide (v < 2 ^ 63))

/-- Success condition of Go strconv.ParseUint(s, 10, 64): one or more decimal
digits, no sign allowed, value below 2^64. -/
def parseUint64Ok (s : String) : Bool :=
  let digits := s.data
  !digits.isEmpty && digits.all Char.isDigit &&
    decide (digits.foldl (fun a d => a * 10 + (d.toNat - 48)) 0 < 2 ^ 64)

/-- Success condition of Go strconv.ParseFloat(s, 64) on decimal inputs: an
optional sign followed by either inf/infinity/nan (case-insensitive) or a
mantissa of digits containing at most one dot and at least one digit, with
an optional signed decimal exponent.  Hexadecimal floats and underscores are
not modelled: no string fed to it in this development uses them. -/
def parseFloat64Ok (s : String) : Bool :=
  let body :=
    match s.data with
    | '-' :: cs => cs
    | '+' :: cs => cs
    | cs => cs
  let lower := body.map Char.toLower
  if lower = "inf".data ∨ lower = "infinity".data ∨ lower = "nan".data then
    true
  else
    let mant := body.takeWhile (fun c => !(c == 'e' || c == 'E'))
    let rest := body.dropWhile (fun c => !(c == 'e' || c == 'E'))
    let mantOk := mant.any Char.isDigit &&
      mant.all (fun c => c.isDigit || c == '.') && decide (mant.count '.' ≤ 1)
    match rest with
    | [] => mantOk
    | _ :: ex =>
      let ex2 :=
        match ex with
        | '-' :: cs => cs
        | '+' :: cs => cs
        | cs => cs
      mantOk && !ex2.isEmpty && ex2.all Char.isDigit

/-- validation.IsStructFieldEmpty from src/validation/structs.go.  The
numeric cases feed `v.String()` — the placeholder rendering — to the strconv
parser and report empty exactly when the parse fails (`err != nil`). -/
def IsStructFieldEmpty : RVal → Bool
  | .rString s => decide (s.length = 0)
  | .rBool b => !b
  | v@(.rInt _ _) => !parseInt64Ok (rvString v)
  | v@(.rUint _ _) => !parseUint64Ok (rvString v)
  | v@(.rUintptr _) => !parseUint64Ok (rvString v)
  | v@(.rFloat _ _) => !parseFloat64Ok (rvString v)
  | .rIface isNil => isNil
  | .rPtr isNil => isNil
  | .rArray len => decide (len = 0)
  | .rSlice len => decide (len = 0)
  | .rMapLen len => decide (len = 0)
  | .rStructN numFields => decide (numFields = 0)
  | .rChanOrOther => false

/-! ## Helper lemmas -/

lemma pickHasValue_all_zero (T : GoTy) (xs : List GoVal)
    (h : ∀ v ∈ xs, IsZero T v = true) : PickHasValue T xs = zeroOf T := by
  induction xs with
  | nil => rfl
  | cons a as ih =>
    have ha : IsZero T a = true := h a (List.mem_cons_self a as)
    have hrest : ∀ v ∈ as, IsZero T v = true :=
      fun v hv => h v (List.mem_cons_of_mem a hv)
    simp [PickHasValue, ha, ih hrest]

lemma pickHasValue_first (T : GoTy) (zs : List GoVal) (x : GoVal) (ys : List GoVal)
    (hz : ∀ v ∈ zs, IsZero T v = true) (hx : IsZero T x = false) :
    PickHasValue T (zs ++ x :: ys) = x := by
  induction zs with
  | nil => simp [PickHasValue, hx]
  | cons a as ih =>
    have ha : IsZero T a = true := hz a (List.mem_cons_self a as)
    have hrest : ∀ v ∈ as, IsZero T v = true :=
      fun v hv => hz v (List.mem_cons_of_mem a hv)
    simp [PickHasValue, ha, ih hrest]

lemma pickHasValue_mem_or_zero (T : GoTy) (xs : List GoVal) :
    PickHasValue T xs ∈ xs ∨ PickHasValue T xs = zeroOf T := by
  induction xs with
  | nil => exact Or.inr rfl
  | cons a as ih =>
    cases ha : IsZero T a with
    | false =>
      left
      simp [PickHasValue, ha]
    | true =>
      have hstep : PickHasValue T (a :: as) = PickHasValue T as := by
        simp [PickHasValue, ha]
      rw [hstep]
      rcases ih with hmem | hz
      · exact Or.inl (List.mem_cons_of_mem a hmem)
      · exact Or.inr hz

/-! ## Claim theorems -/

/-- C1: the claim says that for composite types outside the explicitly
handled cases (structs, sequences, mappings) `IsZero` reports zero exactly on
the structurally default value, so in particular `IsZero(Struct{})` is true
and an empty sequence or mapping is zero.  The code's default branch instead
returns false for every non-nil value: evaluated at the default-constructed
struct `A{}` with `A = struct{ B string }`, at the empty struct, and at an
empty slice and mapping, `IsZero` returns false — contradicting the claim,
the spec's decision table, and the repository's own test `TestStructs`,
which asserts `IsZero(a)` for `a := A{}`. -/
theorem isZero_composite_fallback_bug :
    IsZero (.tStruct "A" [.tString]) (.vStruct "A" [.vString ""]) = false ∧
    IsZero (.tStruct "Empty" []) (.vStruct "Empty" []) = false ∧
    IsZero (.tSlice .tString) (.vSlice []) = false ∧
    IsZero (.tMap .tString .tInterface) (.vMapV []) = false ∧
    IsZero (.tStruct "A" [.tString]) (.vStruct "A" [.vString "x"]) = false :=
  ⟨rfl, rfl, rfl, rfl, rfl⟩

/-- C5: the claim says every supported non-pointer primitive kind is zero
exactly at its default value.  That holds for the nil interface, strings,
booleans and plain `int`, but the numeric switch cases list several types,
so the case variable keeps type `any` and `ptr == 0` compares against a
boxed `int(0)`: evaluated at the default values of int8/int16/int32/int64,
of every unsigned width, and of both floating-point widths, the code returns
false where the claim — and the function's own doc comment, "checks if a
value is the zero value for its type" — requires true. -/
theorem isZero_numeric_widths_bug :
    IsZero (.tInt .i) (.vInt .i 0) = true ∧
    IsZero .tString (.vString "") = true ∧
    IsZero .tBool (.vBool false) = true ∧
    IsZero (.tInt .i8) (.vInt .i8 0) = false ∧
    IsZero (.tInt .i16) (.vInt .i16 0) = false ∧
    IsZero (.tInt .i32) (.vInt .i32 0) = false ∧
    IsZero (.tInt .i64) (.vInt .i64 0) = false ∧
    IsZero (.tUint .u) (.vUint .u 0) = false ∧
    IsZero (.tUint .u8) (.vUint .u8 0) = false ∧
    IsZero (.tUint .u16) (.vUint .u16 0) = false ∧
    IsZero (.tUint .u32) (.vUint .u32 0) = false ∧
    IsZero (.tUint .u64) (.vUint .u64 0) = false ∧
    IsZero (.tFloat .f32) (.vFloat .f32 0) = false ∧
    IsZero (.tFloat .f64) (.vFloat .f64 0) = false :=
  ⟨rfl, rfl, rfl, rfl, rfl, rfl, rfl, rfl, rfl, rfl, rfl, rfl, rfl, rfl⟩

/-- C9: for a pointer type outside the thirteen explicitly handled pointer
cases — such as a pointer to a struct — `IsZero` returns false even on a
typed nil pointer: the value is not the nil interface, so it falls to the
default branch, and the boxed zero value of the instantiating pointer type
is non-nil as an interface, so the branch answers false. -/
theorem isZero_unhandled_pointer_false (t : GoTy) (p : Option GoVal) :
    IsZero (.tPtrOther t) (.vPtrOther p) = false :=
  rfl

/-- C2: `PickHasValue` returns the first candidate in order whose `IsZero` is
false — here z for the leading all-zero segment, x for the first non-zero
element, y for the arbitrary tail — and returns the zero value of the
instantiating type when every candidate is zero or the sequence is empty. -/
theorem pickHasValue_first_nonzero (T : GoTy) (zs : List GoVal) (x : GoVal)
    (ys : List GoVal)
    (hz : ∀ v ∈ zs, IsZero T v = true) (hx : IsZero T x = false) :
    PickHasValue T (zs ++ x :: ys) = x ∧
    PickHasValue T zs = zeroOf T ∧
    PickHasValue T ([] : List GoVal) = zeroOf T :=
  ⟨pickHasValue_first T zs x ys hz hx, pickHasValue_all_zero T zs hz, rfl⟩

/-- Witness for C2 at a concrete input: two zero-valued strings followed by
a non-zero one. -/
theorem pickHasValue_first_nonzero_witness :
    PickHasValue .tString ([.vString "", .vString ""] ++ .vString "x" :: []) =
      .vString "x" ∧
    PickHasValue .tString [.vString "", .vString ""] = zeroOf .tString ∧
    PickHasValue .tString ([] : List GoVal) = zeroOf .tString :=
  pickHasValue_first_nonzero .tString [.vString "", .vString ""] (.vString "x") []
    (by decide) (by decide)

/-- C3: `Pick` returns the value stored under the key whenever the key is
present — the stored value itself, zero or not — and the default exactly
when the key is absent; the state-passing reading of the same source shows
the mapping comes back unchanged. -/
theorem pick_mapping_get {K V : Type} [DecidableEq K] (m : List (K × V))
    (k : K) (d : V) :
    (∀ v, mapLookup m k = some v → Pick m k d = v) ∧
    (mapLookup m k = none → Pick m k d = d) ∧
    (PickSt m k d).2 = m ∧ (PickSt m k d).1 = Pick m k d := by
  refine ⟨fun v hv => ?_, fun hn => ?_, ?_, ?_⟩
  · simp [Pick, hv]
  · simp [Pick, hn]
  · cases h : mapLookup m k <;> simp [PickSt, mapIndex, h]
  · cases h : mapLookup m k <;> simp [PickSt, mapIndex, Pick, h]

/-- Witness for C3 at a concrete input: the key "a" stores the zero value 0,
which is returned rather than the default 7; the absent key "b" yields the
default; the mapping is unchanged. -/
theorem pick_mapping_get_witness :
    Pick [("a", (0 : Int))] "a" 7 = 0 ∧
    Pick [("a", (0 : Int))] "b" 7 = 7 ∧
    (PickSt [("a", (0 : Int))] "a" 7).2 = [("a", 0)] :=
  ⟨(pick_mapping_get [("a", 0)] "a" 7).1 0 rfl,
   (pick_mapping_get [("a", 0)] "b" 7).2.1 rfl,
   (pick_mapping_get [("a", 0)] "a" 7).2.2.1⟩

/-- C4: for every handled pointer kind, `IsZero` is true on a nil pointer,
true on a pointer to the pointee's zero (empty string, 0, 0.0, false), and
false on a pointer to a non-zero pointee; and the concrete scenario
`FirstNonZero(nilPointer, pointerToEmptyString, pointerToString("filled"))`
returns the pointer to "filled". -/
theorem isZero_pointer_kinds (wi : IntWidth) (wu : UintWidth) (wf : FloatWidth)
    (s : String) (n : Int) (u : Nat) (x : Rat)
    (hs : s ≠ "") (hn : n ≠ 0) (hu : u ≠ 0) (hx : x ≠ 0) :
    IsZero .tPtrString (.vPtrString none) = true ∧
    IsZero (.tPtrInt wi) (.vPtrInt wi none) = true ∧
    IsZero (.tPtrUint wu) (.vPtrUint wu none) = true ∧
    IsZero (.tPtrFloat wf) (.vPtrFloat wf none) = true ∧
    IsZero .tPtrBool (.vPtrBool none) = true ∧
    IsZero .tPtrString (.vPtrString (some "")) = true ∧
    IsZero (.tPtrInt wi) (.vPtrInt wi (some 0)) = true ∧
    IsZero (.tPtrUint wu) (.vPtrUint wu (some 0)) = true ∧
    IsZero (.tPtrFloat wf) (.vPtrFloat wf (some 0)) = true ∧
    IsZero .tPtrBool (.vPtrBool (some false)) = true ∧
    IsZero .tPtrString (.vPtrString (some s)) = false ∧
    IsZero (.tPtrInt wi) (.vPtrInt wi (some n)) = false ∧
    IsZero (.tPtrUint wu) (.vPtrUint wu (some u)) = false ∧
    IsZero (.tPtrFloat wf) (.vPtrFloat wf (some x)) = false ∧
    IsZero .tPtrBool (.vPtrBool (some true)) = false ∧
    PickHasValue .tPtrString
        [.vPtrString none, .vPtrString (some ""), .vPtrString (some "filled")] =
      .vPtrString (some "filled") := by
  refine ⟨rfl, rfl, rfl, rfl, rfl, by decide, rfl, rfl, ?_, rfl,
    ?_, ?_, ?_, ?_, rfl, rfl⟩ <;> simp [IsZero, hs, hn, hu, hx]

/-- Witness for C4 at concrete inputs: the int width, the non-zero pointees
"filled", 1, 1, 1. -/
theorem isZero_pointer_kinds_witness :
    ("filled" : String) ≠ "" ∧
    IsZero .tPtrString (.vPtrString (some "filled")) = false ∧
    IsZero .tPtrString (.vPtrString none) = true ∧
    PickHasValue .tPtrString
        [.vPtrString none, .vPtrString (some ""), .vPtrString (some "filled")] =
      .vPtrString (some "filled") := by
  have h := isZero_pointer_kinds .i .u .f32 "filled" 1 1 1
    (by decide) (by decide) (by decide) (by decide)
  exact ⟨by decide, h.2.2.2.2.2.2.2.2.2.2.1, h.1,
    h.2.2.2.2.2.2.2.2.2.2.2.2.2.2.2⟩

/-- C6: the operations are total and signal no error: `IsZero` resolves to a
boolean on every input — with the unrecognized composite kinds taking the
fallback path to a boolean answer rather than failing — `PickHasValue`
always returns either one of its candidates or the zero value of the
instantiating type, and `Pick` always returns either the stored value or
the default. -/
theorem valueSelector_total :
    (∀ (T : GoTy) (v : GoVal), IsZero T v = true ∨ IsZero T v = false) ∧
    (∀ (T : GoTy) (name : String) (fields : List GoVal),
      IsZero T (.vStruct name fields) = false) ∧
    (∀ (T : GoTy) (xs : List GoVal),
      PickHasValue T xs ∈ xs ∨ PickHasValue T xs = zeroOf T) ∧
    (∀ (K V : Type) [DecidableEq K] (m : List (K × V)) (k : K) (d : V),
      (∃ v, mapLookup m k = some v ∧ Pick m k d = v) ∨
        (mapLookup m k = none ∧ Pick m k d = d)) := by
  refine ⟨fun T v => ?_, fun T name fields => ?_, pickHasValue_mem_or_zero,
    fun K V _ m k d => ?_⟩
  · cases IsZero T v
    · exact Or.inr rfl
    · exact Or.inl rfl
  · cases h : zeroIsNilIface T <;> simp [IsZero, h, isNilIface]
  · cases h : mapLookup m k with
    | some v => exact Or.inl ⟨v, rfl, by simp [Pick, h]⟩
    | none => exact Or.inr ⟨rfl, by simp [Pick, h]⟩

/-- C7: `PickHasValue` short-circuits on the first non-zero match: whenever
the candidate list xs contains an element whose `IsZero` is false, appending
any further candidates ys does not change the result. -/
theorem pickHasValue_short_circuit (T : GoTy) (xs ys : List GoVal)
    (h : ∃ x ∈ xs, IsZero T x = false) :
    PickHasValue T (xs ++ ys) = PickHasValue T xs := by
  induction xs with
  | nil => simp at h
  | cons a as ih =>
    cases ha : IsZero T a with
    | false => simp [PickHasValue, ha]
    | true =>
      have h2 : ∃ x ∈ as, IsZero T x = false := by
        rcases h with ⟨x, hx, hxz⟩
        rcases List.mem_cons.mp hx with rfl | hmem
        · simp [ha] at hxz
        · exact ⟨x, hmem, hxz⟩
      simp [PickHasValue, ha, ih h2]

/-- Witness for C7 at a concrete input: a non-zero boolean candidate makes
the trailing candidates irrelevant. -/
theorem pickHasValue_short_circuit_witness :
    PickHasValue .tBool ([.vBool true] ++ [.vBool false]) =
      PickHasValue .tBool [.vBool true] :=
  pickHasValue_short_circuit .tBool [.vBool true] [.vBool false] (by decide)

/-- C8: the operations are pure and deterministic: evaluations on equal
arguments yield equal results, and the state-passing reading of `Pick` shows
the mapping is unchanged by the call while its result agrees with the pure
reading. -/
theorem valueSelector_pure_deterministic (T : GoTy) (v v' : GoVal)
    (hv : v = v') (xs xs' : List GoVal) (hxs : xs = xs')
    {K V : Type} [DecidableEq K] (m m' : List (K × V)) (k : K) (d : V)
    (hm : m = m') :
    IsZero T v = IsZero T v' ∧
    PickHasValue T xs = PickHasValue T xs' ∧
    Pick m k d = Pick m' k d ∧
    (PickSt m k d).2 = m ∧ (PickSt m k d).1 = Pick m k d := by
  subst hv hxs hm
  refine ⟨rfl, rfl, rfl, ?_, ?_⟩
  · cases h : mapLookup m k <;> simp [PickSt, mapIndex, h]
  · cases h : mapLookup m k <;> simp [PickSt, mapIndex, Pick, h]

/-- Witness for C8 at concrete inputs. -/
theorem valueSelector_pure_deterministic_witness :
    IsZero .tBool (.vBool true) = IsZero .tBool (.vBool true) ∧
    PickHasValue .tBool [.vBool true] = PickHasValue .tBool [.vBool true] ∧
    Pick [("a", (1 : Nat))] "a" 0 = Pick [("a", (1 : Nat))] "a" 0 ∧
    (PickSt [("a", (1 : Nat))] "a" 0).2 = [("a", 1)] ∧
    (PickSt [("a", (1 : Nat))] "a" 0).1 = Pick [("a", (1 : Nat))] "a" 0 :=
  valueSelector_pure_deterministic .tBool (.vBool true) (.vBool true) rfl
    [.vBool true] [.vBool true] rfl [("a", 1)] [("a", 1)] "a" 0 rfl

/-- C10: validation.IsStructFieldEmpty reports every signed integer,
unsigned integer (uintptr included) and floating-point value as empty
regardless of its numeric value, because it parses the reflect placeholder
rendering "<kind Value>" — which never parses as a number — and treats the
parse failure as emptiness; in particular it calls the int64 value
4323423423423423423 empty (exactly what the package's own TestIsZero
expects) while values.IsZero correctly calls it non-zero, so the two notions
of numeric emptiness are incompatible. -/
theorem isStructFieldEmpty_numeric_always_empty :
    (∀ (w : IntWidth) (n : Int), IsStructFieldEmpty (.rInt w n) = true) ∧
    (∀ (w : UintWidth) (n : Nat), IsStructFieldEmpty (.rUint w n) = true) ∧
    (∀ n : Nat, IsStructFieldEmpty (.rUintptr n) = true) ∧
    (∀ (w : FloatWidth) (x : Rat), IsStructFieldEmpty (.rFloat w x) = true) ∧
    IsStructFieldEmpty (.rInt .i64 4323423423423423423) = true ∧
    IsZero (.tInt .i64) (.vInt .i64 4323423423423423423) = false := by
  refine ⟨fun w n => ?_, fun w n => ?_, fun n => rfl, fun w x => ?_, ?_, ?_⟩
  · cases w <;> rfl
  · cases w <;> rfl
  · cases w <;> rfl
  · rfl
  · decide

end GoUtil
